import Mathlib

/-!
Verification development for the Smart Home IoT frontend core:
the MQTT router (`SmartHomeMQTT` in the client script), the dashboard
reducer and liveness bookkeeping (`Dashboard`), and the topic
configuration (`config.js`).  JavaScript values are embedded as a
`JVal` inductive; JavaScript runtime behaviours (truthiness, `||`,
property get/set, `parseInt`, `Number` coercion, `Math.round`) are
modelled explicitly.  Exceptions are modelled with `Except` / abort
flags where the code's control flow depends on them.
-/

namespace SmartHomeIoT

/-- JavaScript-like values as seen by the frontend after JSON decoding.
`undefined` and `nan` model JavaScript `undefined` and `NaN`, which arise from
property access on absent keys and from failed numeric parses. -/
inductive JVal : Type where
  | undefined : JVal
  | null : JVal
  | jb (b : Bool) : JVal
  | num (q : ℚ) : JVal
  | nan : JVal
  | str (s : String) : JVal
  | arr (xs : List JVal) : JVal
  | obj (fields : List (String × JVal)) : JVal

/-- First binding of a key in an association list (JavaScript object lookup). -/
def getEntry {α : Type} : List (String × α) → String → Option α
  | [], _ => none
  | (k', v) :: rest, k => if k' = k then some v else getEntry rest k

/-- JavaScript object property write: an existing key keeps its position and is
overwritten, a new key is appended. -/
def setEntry {α : Type} : List (String × α) → String → α → List (String × α)
  | [], k, v => [(k, v)]
  | (k', v') :: rest, k, v =>
      if k' = k then (k, v) :: rest else (k', v') :: setEntry rest k v

/-- Property read `o.k`.  Absent keys give `undefined`.  Reads on
non-objects give `undefined` as well (the code only reads fields of decoded
JSON objects; reading a property of `null` would throw in JavaScript, but no
routed payload shape from the wire format does that). -/
def jget : JVal → String → JVal
  | .obj fs, k => (getEntry fs k).getD .undefined
  | _, _ => .undefined

/-- Property write `o.k = v`.  On a non-object this is modelled as the
identity (in strict-mode JavaScript it would throw; the router only assigns
into decoded item objects, per the wire format). -/
def jset : JVal → String → JVal → JVal
  | .obj fs, k, v => .obj (setEntry fs k v)
  | o, _, _ => o

/-- JavaScript truthiness: `undefined`, `null`, `NaN`, `false`, `0` and `""`
are falsy, everything else (including empty arrays and objects) is truthy. -/
def truthy : JVal → Bool
  | .undefined => false
  | .null => false
  | .nan => false
  | .jb b => b
  | .num q => decide (q ≠ 0)
  | .str s => decide (s ≠ "")
  | .arr _ => true
  | .obj _ => true

/-- JavaScript `a || b`. -/
def jor (a b : JVal) : JVal := if truthy a then a else b

/-- Numeric value of a digit string. -/
def digitsVal (ds : List Char) : ℕ :=
  ds.foldl (fun a c => a * 10 + (c.toNat - 48)) 0

/-- Whitespace skipped by JavaScript numeric parsing. -/
def isWs (c : Char) : Bool :=
  c == ' ' || c == '\t' || c == '\n' || c == '\r'

/-- JavaScript `parseInt(s, 10)` on a string: skip leading whitespace, read an
optional sign and then a maximal run of decimal digits; no digits means `NaN`
(`none`); trailing garbage is ignored. -/
def parseIntStr (s : String) : Option ℤ :=
  let cs := s.data.dropWhile isWs
  let sc : ℤ × List Char :=
    match cs with
    | '-' :: r => (-1, r)
    | '+' :: r => (1, r)
    | _ => (1, cs)
  let ds := sc.2.takeWhile Char.isDigit
  if ds.isEmpty then none else some (sc.1 * (digitsVal ds : ℤ))

/-- Decimal body of JavaScript `Number(s)` after trimming: optional sign,
`digits`, `digits.digits` or `.digits`; anything else (we do not model
exponents or hex, which no payload uses) is `NaN`. -/
def parseNumberCore (cs : List Char) : Option ℚ :=
  let sc : ℚ × List Char :=
    match cs with
    | '-' :: r => (-1, r)
    | '+' :: r => (1, r)
    | _ => (1, cs)
  let ip := sc.2.takeWhile Char.isDigit
  let rest := sc.2.dropWhile Char.isDigit
  match rest with
  | [] => if ip.isEmpty then none else some (sc.1 * digitsVal ip)
  | '.' :: r =>
      let fp := r.takeWhile Char.isDigit
      let tail := r.dropWhile Char.isDigit
      if !tail.isEmpty then none
      else if ip.isEmpty && fp.isEmpty then none
      else some (sc.1 * ((digitsVal ip : ℚ) + (digitsVal fp : ℚ) / (10 ^ fp.length)))
  | _ => none

/-- JavaScript `Number(s)` for a string: trimmed-empty is `0`, otherwise the
decimal form above. -/
def parseNumberStr (s : String) : Option ℚ :=
  let cs := (((s.data.dropWhile isWs).reverse).dropWhile isWs).reverse
  if cs.isEmpty then some 0 else parseNumberCore cs

/-- JavaScript `ToNumber` coercion, with `none` standing for `NaN`.  Arrays
coerce through their joined string form; we model the empty and singleton
cases that have simple numeric forms and treat longer arrays (whose joined
form contains commas) as `NaN`, which no routed payload exercises. -/
def toNumberJS : JVal → Option ℚ
  | .num q => some q
  | .nan => none
  | .jb b => some (if b then 1 else 0)
  | .null => some 0
  | .undefined => none
  | .str s => parseNumberStr s
  | .arr [] => some 0
  | .arr [x] => toNumberJS x
  | .arr (_ :: _ :: _) => none
  | .obj _ => none

/-- JavaScript `isNaN(v)` (coercing). -/
def isNaNJS (v : JVal) : Bool := (toNumberJS v).isNone

/-- JavaScript `Math.round`: round half toward positive infinity. -/
def roundJS (q : ℚ) : ℤ := ⌊q + 1 / 2⌋

/-- The four frontend topics (`CONFIG.topics` in `config.js`). -/
structure Topics where
  sensors : String
  alarmState : String
  personCount : String
  webCommand : String
deriving DecidableEq

/-- Concrete topic values from `config.js`. -/
def configTopics : Topics :=
  { sensors := "iot/sensors"
    alarmState := "iot/alarm/state"
    personCount := "iot/home/person_count"
    webCommand := "iot/web/command" }

/-! ## Observer fan-out (`SmartHomeMQTT._fire`) -/

/-- A registered callback, abstracted to its registration identity and
whether invoking it raises.  `cb(data)` either completes or throws. -/
structure Listener where
  id : ℕ
  throws : Bool
deriving DecidableEq

/-- Fan-out `(this._callbacks[event] || []).forEach((cb) => cb(data))`:
callbacks run in registration order and each receives the same payload;
`forEach` does not catch exceptions, so a throwing callback aborts the
iteration and the exception escapes `_fire`.  Returns the performed
invocations `(id, payload)` in order, and whether an exception escaped. -/
def fireInvoked : List Listener → JVal → List (ℕ × JVal) × Bool
  | [], _ => ([], false)
  | cb :: rest, payload =>
      if cb.throws then ([(cb.id, payload)], true)
      else
        let r := fireInvoked rest payload
        ((cb.id, payload) :: r.1, r.2)

/-! ## Message routing (`SmartHomeMQTT._handleMessage`) -/

/-- Batch splitting `data.items || [data]`: a falsy `items` field (absent,
null, ...) makes the whole payload a single-item batch. -/
def itemsOf (data : JVal) : JVal := jor (jget data "items") (.arr [data])

/-- Per-item device inheritance `item.device = item.device || device`:
the item's `device` is overwritten with itself when truthy, and with the
envelope-level device when falsy (absent, null, empty string). -/
def resolveItem (item envDevice : JVal) : JVal :=
  jset item "device" (jor (jget item "device") envDevice)

/-- Sensor-topic handling: split the batch and emit one resolved item per
entry, in array order.  A truthy non-array `items` field would make
`forEach` throw before any item is emitted (the exception is caught at the
message-handler boundary), hence no events in that branch. -/
def handleSensors (data : JVal) : List JVal :=
  match itemsOf data with
  | .arr xs => xs.map (fun item => resolveItem item (jget data "device"))
  | _ => []

/-- Topic classification of `_handleMessage`: the returned list is the
ordered sequence of `_fire` calls (event name, payload) the handler makes,
all performed synchronously before the handler returns.  Unmatched topics
fall through silently. -/
def handleMessage (t : Topics) (topic : String) (data : JVal) : List (String × JVal) :=
  if topic = t.sensors then
    (handleSensors data).map (fun item => ("onSensorData", item))
  else if topic = t.alarmState then [("onAlarmState", data)]
  else if topic = t.personCount then [("onPersonCount", data)]
  else []

/-! ## Connection manager (`SmartHomeMQTT.connect` / `publishCommand`) -/

/-- Observable state of the client object: whether `this.client` is set and
the `this.connected` flag. -/
structure MqttClientState where
  clientPresent : Bool
  connected : Bool
deriving DecidableEq

/-- The transport `message` handler wraps `JSON.parse` and `_handleMessage`
in a try/catch: a decode failure is logged and the message dropped, so the
handler itself never raises and never changes the client state.  `decode`
abstracts `JSON.parse` on the payload text. -/
def messageHandler (decode : String → Except String JVal) (t : Topics)
    (st : MqttClientState) (topic payload : String) :
    MqttClientState × List (String × JVal) :=
  match decode payload with
  | .error _ => (st, [])
  | .ok data => (st, handleMessage t topic data)

/-- Sequential processing of an inbound message stream: fan-outs of one
message complete before the next message is handled. -/
def processMessages (decode : String → Except String JVal) (t : Topics)
    (st : MqttClientState) : List (String × String) → MqttClientState × List (String × JVal)
  | [] => (st, [])
  | (topic, payload) :: rest =>
      let r := messageHandler decode t st topic payload
      let r2 := processMessages decode t r.1 rest
      (r2.1, r.2 ++ r2.2)

/-- One observable step of the transport-connected handler. -/
inductive ConnEffect : Type where
  | subscribe (topic : String) : ConnEffect
  | fire (event : String) (payload : JVal) : ConnEffect

/-- The `connect` event handler registered in `connect()`: sets
`this.connected = true`, issues one `subscribe` per configured inbound
topic, then fires `onConnect` with no argument (payload `undefined`). -/
def onConnectHandler (t : Topics) : Bool × List ConnEffect :=
  (true,
    [.subscribe t.sensors, .subscribe t.alarmState, .subscribe t.personCount,
     .fire "onConnect" .undefined])

/-- Topics named by the subscribe effects, in order. -/
def subscribedTopics (es : List ConnEffect) : List String :=
  es.filterMap fun e =>
    match e with
    | .subscribe s => some s
    | _ => none

/-- The published command object `{ target, command, params: params || {} }`. -/
def commandPayload (target command params : JVal) : JVal :=
  .obj [("target", target), ("command", command), ("params", jor params (.obj []))]

/-- `publishCommand`: with no client or while disconnected it only logs and
returns (nothing published, state untouched); otherwise it publishes the
serialized command object to the fixed `webCommand` topic.  The `Option`
result is the (topic, object) actually handed to `client.publish`, the
serialization being injective on these objects. -/
def publishCommand (st : MqttClientState) (t : Topics)
    (target command params : JVal) : MqttClientState × Option (String × JVal) :=
  if !st.clientPresent || !st.connected then (st, none)
  else (st, some (t.webCommand, commandPayload target command params))

/-! ## Dashboard sensor dispatch (`Dashboard.updateSensor`) -/

/-- The sensor-kind specific update selected by the `switch` in
`updateSensor`; each constructor records the updater called and its
arguments. -/
inductive SensorUpdate : Type where
  | dht (sensor : String) (value : JVal) : SensorUpdate
  | motion (sensor : String) (value : JVal) : SensorUpdate
  | door (sensor : String) (value : JVal) : SensorUpdate
  | distance (sensor : String) (value : JVal) : SensorUpdate
  | onOff (elementId : String) (value : JVal) : SensorUpdate
  | rgb (value : JVal) : SensorUpdate
  | gyroscope (item : JVal) : SensorUpdate
  | timer (item : JVal) : SensorUpdate

/-- The `switch (sensor)` of `updateSensor`, transcribed case group by case
group; a sensor kind matching no case falls out of the switch and produces
no update (`none`). -/
def dispatchSensor (item : JVal) : Option SensorUpdate :=
  match jget item "sensor" with
  | .str sensor =>
      if sensor = "DHT1" ∨ sensor = "DHT2" ∨ sensor = "DHT3" then
        some (.dht sensor (jget item "value"))
      else if sensor = "DPIR1" ∨ sensor = "DPIR2" ∨ sensor = "DPIR3" then
        some (.motion sensor (jget item "value"))
      else if sensor = "DS1" ∨ sensor = "DS2" then
        some (.door sensor (jget item "value"))
      else if sensor = "DUS1" ∨ sensor = "DUS2" then
        some (.distance sensor (jget item "value"))
      else if sensor = "DL" then some (.onOff "dl-state" (jget item "value"))
      else if sensor = "DB" then some (.onOff "db-state" (jget item "value"))
      else if sensor = "BRGB" then some (.rgb (jget item "value"))
      else if sensor = "GSG" then some (.gyroscope item)
      else if sensor = "4SD" then some (.timer item)
      else none
  | _ => none

/-- The sensor-kind identifiers with a case in the `updateSensor` switch. -/
def knownKind (s : String) : Bool :=
  decide (s ∈ (["DHT1", "DHT2", "DHT3", "DPIR1", "DPIR2", "DPIR3", "DS1", "DS2",
    "DUS1", "DUS2", "DL", "DB", "BRGB", "GSG", "4SD"] : List String))

/-! ## Person count (`Dashboard.updatePersonCount`) -/

/-- JavaScript `typeof v === "number"` (`NaN` is a number). -/
def typeofNumber : JVal → Bool
  | .num _ => true
  | .nan => true
  | _ => false

/-- JavaScript `typeof v === "object"` (`null` and arrays included). -/
def typeofObject : JVal → Bool
  | .obj _ => true
  | .arr _ => true
  | .null => true
  | _ => false

/-- JavaScript `v === null`. -/
def isNullJS : JVal → Bool
  | .null => true
  | _ => false

/-- JavaScript loose `v != null`: false exactly for `null` and `undefined`. -/
def loosePresent : JVal → Bool
  | .null => false
  | .undefined => false
  | _ => true

/-- JavaScript `parseInt(v, 10)` as used on non-number payloads: the value
is coerced to a string first.  Strings are parsed exactly; `null`,
`undefined`, booleans and `NaN` stringify without leading digits; a plain
object stringifies as `[object Object]`.  (Numbers never reach this call in
`updatePersonCount` — the `typeof` test catches them first — and arrays,
which JavaScript would join element-wise, appear in no routed payload;
both are modelled as `NaN`.) -/
def parseIntJS : JVal → JVal
  | .str s =>
      match parseIntStr s with
      | some n => .num (n : ℚ)
      | none => .nan
  | _ => .nan

/-- `updatePersonCount`: a number (or `NaN`) is taken as-is, a non-null
`typeof`-object with a loosely non-null `count` field yields that field,
anything else goes through `parseInt`.  The result is the value handed to
`_setText("person-count", ...)`: the string `"?"` when `isNaN(count)`,
otherwise the count itself. -/
def updatePersonCount (data : JVal) : JVal :=
  let count : JVal :=
    if typeofNumber data then data
    else if typeofObject data && !isNullJS data && loosePresent (jget data "count") then
      jget data "count"
    else parseIntJS data
  if isNaNJS count then .str "?" else count

/-! ## RGB decode (`Dashboard._updateRGB`) -/

/-- One colour channel `Math.round((value.k || 0) * 255)`: a falsy channel
fraction (absent, null, `0`, `NaN`) becomes `0`; the multiplication coerces
its operand with `ToNumber`, a non-numeric truthy operand giving `NaN`
(`none`). -/
def rgbChannel (value : JVal) (k : String) : Option ℤ :=
  match toNumberJS (jor (jget value k) (.num 0)) with
  | some q => some (roundJS (q * 255))
  | none => none

/-- `_updateRGB`: the early return fires unless `typeof value === "object"`,
so only objects and arrays yield channels (`value === null` passes the
`typeof` test but the subsequent property reads would throw before any
channel is applied, hence no channels there either). -/
def updateRGB (value : JVal) : Option (Option ℤ × Option ℤ × Option ℤ) :=
  match value with
  | .obj _ => some (rgbChannel value "r", rgbChannel value "g", rgbChannel value "b")
  | .arr _ => some (rgbChannel value "r", rgbChannel value "g", rgbChannel value "b")
  | _ => none

/-! ## Liveness (`Dashboard.lastUpdate` / `Dashboard.refreshTimestamps`) -/

/-- The `this.lastUpdate` object: per-device last-seen time in integer
milliseconds (`Date` values compare through `getTime()`). -/
def LastUpdate : Type := List (String × Option ℤ)

/-- The constructor's initial `\x7bPI1: null, PI2: null, PI3: null\x7d`. -/
def initDash : LastUpdate := [("PI1", none), ("PI2", none), ("PI3", none)]

/-- The `this.lastUpdate[device] = new Date()` assignment performed by
`updateSensor` for a truthy device. -/
def recordSeen (lu : LastUpdate) (device : String) (now : ℤ) : LastUpdate :=
  setEntry lu device (some now)

/-- `refreshTimestamps`: iterate over the fixed list PI1, PI2, PI3, skip
devices with no recorded time, and for the rest recompute
`secAgo = Math.floor((now - last) / 1000)` and set the status badge to
online iff `secAgo < 30`.  The result lists the `_updatePiStatus` calls
(device, online) in order. -/
def piStatus (lu : LastUpdate) (now : ℤ) (pi : String) : Option (String × Bool) :=
  match getEntry lu pi with
  | none => none
  | some none => none
  | some (some t) => some (pi, decide (Int.fdiv (now - t) 1000 < 30))

/-- `refreshTimestamps`: iterate over the fixed list PI1, PI2, PI3, skip
devices with no recorded time (the `if (this.lastUpdate[pi])` guard), and for
the rest recompute `secAgo = Math.floor((now - last) / 1000)` and set the
status badge to online iff `secAgo < 30`.  The result lists the
`_updatePiStatus` calls (device, online) in order. -/
def refreshTimestamps (lu : LastUpdate) (now : ℤ) : List (String × Bool) :=
  ["PI1", "PI2", "PI3"].filterMap (piStatus lu now)

/-! ## Auxiliary predicates and fixtures used in the statements -/

/-- The three JavaScript-falsy device-field shapes a wire item can carry. -/
def devFalsy (v : JVal) : Prop := v = .undefined ∨ v = .null ∨ v = .str ""

/-- Well-formed device field of a wire item: absent, null, or a string. -/
def devOk (v : JVal) : Prop := v = .undefined ∨ v = .null ∨ ∃ s, v = .str s

/-- A toy decoder standing in for `JSON.parse`: accepts one fixed text and
rejects everything else, enough to exercise the handler's catch path. -/
def decodeToy (s : String) : Except String JVal :=
  if s = "ok" then .ok (.obj []) else .error "SyntaxError"

/-- Batch item of a known sensor kind (a DHT temperature/humidity reading). -/
def itemDHT : JVal := .obj [("sensor", .str "DHT1"), ("value", .num 25)]

/-- Batch item of an unknown sensor kind. -/
def itemZZZ : JVal := .obj [("sensor", .str "ZZZ"), ("value", .num 1)]

/-- Batch envelope whose only item has the unknown kind ZZZ. -/
def envZZZonly : JVal :=
  .obj [("device", .str "PI1"), ("items", .arr [itemZZZ])]

/-- Batch envelope with one known-kind item and one unknown-kind sibling. -/
def envMix : JVal :=
  .obj [("device", .str "PI1"), ("items", .arr [itemDHT, itemZZZ])]

/-- Flat (unbatched) sensor envelope. -/
def envFlat : JVal :=
  .obj [("device", .str "PI1"), ("sensor", .str "DHT1"), ("value", .num 25)]

/-! ## Helper lemmas -/

theorem getEntry_setEntry {α : Type} (l : List (String × α)) (k : String) (v : α) :
    getEntry (setEntry l k v) k = some v := by
  induction l with
  | nil => simp [setEntry, getEntry]
  | cons hd tl ih =>
      obtain ⟨k', v'⟩ := hd
      by_cases h : k' = k
      · simp [setEntry, getEntry, h]
      · simp [setEntry, getEntry, h, ih]

theorem jget_jset_obj (fs : List (String × JVal)) (k : String) (v : JVal) :
    jget (jset (.obj fs) k v) k = v := by
  simp [jget, jset, getEntry_setEntry]

theorem piStatus_name (lu : LastUpdate) (now : ℤ) (pi d : String) (b : Bool)
    (h : piStatus lu now pi = some (d, b)) : d = pi := by
  unfold piStatus at h
  cases hg : getEntry lu pi with
  | none => rw [hg] at h; exact Option.noConfusion h
  | some v =>
      cases v with
      | none => rw [hg] at h; exact Option.noConfusion h
      | some t =>
          rw [hg] at h
          have h' := Option.some.inj h
          exact (congrArg Prod.fst h').symm

theorem refresh_single (t0 now : ℤ) :
    refreshTimestamps (recordSeen initDash "PI1" t0) now =
      [("PI1", decide (Int.fdiv (now - t0) 1000 < 30))] := rfl

/-! ## Claim C1 -/

/-- C1 (counterexample): with listeners 0 (throwing) and 1 registered in
that order for one event kind, a fan-out invokes only listener 0 — listener
1, registered after the one that raises, is NOT invoked with the payload,
and the exception escapes `_fire`.  This refutes the claim that listeners
registered after a raising listener still run in the same fan-out. -/
theorem C1_counterexample :
    (fireInvoked [⟨0, true⟩, ⟨1, false⟩] (.num 1)).1.map Prod.fst = [0] ∧
    1 ∉ (fireInvoked [⟨0, true⟩, ⟨1, false⟩] (.num 1)).1.map Prod.fst ∧
    (fireInvoked [⟨0, true⟩, ⟨1, false⟩] (.num 1)).2 = true := by
  refine ⟨rfl, ?_, rfl⟩
  decide

/-- C1 (amended): `_fire` does not isolate listener invocations.  If the
listeners registered before some listener `cb` all complete and `cb`
raises, then exactly the listeners up to and including `cb` are invoked
(each with the payload), no listener registered after `cb` runs in that
fan-out, and the exception escapes `_fire` (for inbound messages it is then
caught by the transport message handler's try/catch). -/
theorem C1_fanout_aborts_after_throw (pre : List Listener) (cb : Listener)
    (post : List Listener) (payload : JVal)
    (hpre : ∀ l ∈ pre, l.throws = false) (hcb : cb.throws = true) :
    fireInvoked (pre ++ cb :: post) payload =
      (pre.map (fun l => (l.id, payload)) ++ [(cb.id, payload)], true) := by
  induction pre with
  | nil => simp [fireInvoked, hcb]
  | cons hd tl ih =>
      have hhd : hd.throws = false := hpre hd (by simp)
      have htl := ih (fun l hl => hpre l (by simp [hl]))
      simp [fireInvoked, hhd, htl]

/-- C1 (witness): the amended theorem applied to the concrete registration
order [listener 0 (fine), listener 1 (throws), listener 2 (fine)]. -/
theorem C1_witness :
    fireInvoked [⟨0, false⟩, ⟨1, true⟩, ⟨2, false⟩] (.num 1) =
      ([(0, .num 1), (1, .num 1)], true) :=
  C1_fanout_aborts_after_throw [⟨0, false⟩] ⟨1, true⟩ [⟨2, false⟩] (.num 1)
    (by decide) rfl

/-! ## Claim C7 -/

/-- C7: person-count normalization maps the bare number 7, the numeric
string "7" and the wrapper object with count 7 all to the displayed count 7,
while the unparsable string "abc" yields the unknown sentinel rendered "?";
`updatePersonCount` is a total function of the payload, so no input makes it
raise. -/
theorem C7_person_count_normalization :
    updatePersonCount (.num 7) = .num 7 ∧
    updatePersonCount (.str "7") = .num 7 ∧
    updatePersonCount (.obj [("count", .num 7)]) = .num 7 ∧
    updatePersonCount (.str "abc") = .str "?" :=
  ⟨rfl, rfl, rfl, rfl⟩

/-! ## Claim C10 -/

/-- C10: device inheritance during batch splitting is by falsiness — an
item whose own `device` field is absent (`undefined`), `null` or the empty
string has it overwritten with the envelope-level device, whatever that is;
and the fan-out hands every invoked listener the very same resolved payload
(the in-place mutation of the item is modelled by the router emitting the
resolved item value, which `_fire` passes unchanged to each callback). -/
theorem C10_device_falsiness_inheritance :
    (∀ (fs : List (String × JVal)) (dev : JVal), devFalsy (jget (.obj fs) "device") →
        jget (resolveItem (.obj fs) dev) "device" = dev) ∧
    (∀ (cbs : List Listener) (payload : JVal),
        ∀ p ∈ (fireInvoked cbs payload).1, p.2 = payload) := by
  constructor
  · intro fs dev h
    have hj : jor (jget (.obj fs) "device") dev = dev := by
      rcases h with h | h | h <;> rw [h] <;> simp [jor, truthy]
    rw [resolveItem, hj]
    exact jget_jset_obj fs "device" dev
  · intro cbs payload
    induction cbs with
    | nil => intro p hp; simp [fireInvoked] at hp
    | cons hd tl ih =>
        intro p hp
        by_cases h : hd.throws
        · simp [fireInvoked, h] at hp
          simp [hp]
        · simp only [fireInvoked, h, if_false, Bool.false_eq_true, List.mem_cons] at hp
          rcases hp with hp | hp
          · simp [hp]
          · exact ih p hp

/-- C10 (witness): a device-less item inherits the envelope device PI1. -/
theorem C10_witness :
    jget (resolveItem (.obj [("sensor", .str "DHT1")]) (.str "PI1")) "device" = .str "PI1" :=
  C10_device_falsiness_inheritance.1 [("sensor", .str "DHT1")] (.str "PI1") (Or.inl rfl)

/-! ## Claim C2 -/

/-- C2 (counterexample): handling a sensor-topic batch whose only item has
the unknown kind ZZZ fires exactly one `onSensorData` notification, and its
payload is that (device-resolved) ZZZ item — not zero notifications as the
claim states: the router fires per item unconditionally, before any
sensor-kind dispatch happens. -/
theorem C2_counterexample :
    (handleMessage configTopics configTopics.sensors envZZZonly).map Prod.fst =
      ["onSensorData"] ∧
    handleMessage configTopics configTopics.sensors envZZZonly =
      [("onSensorData",
        .obj [("sensor", .str "ZZZ"), ("value", .num 1), ("device", .str "PI1")])] :=
  ⟨rfl, rfl⟩

/-- C2 (amended): an unknown sensor kind produces zero sensor-specific
updates, not zero notifications.  Generally, any item whose `sensor` kind
has no case in the `updateSensor` switch yields no update; concretely, the
mixed batch [DHT1 item, ZZZ item] fires one `onSensorData` notification per
item in order, the ZZZ item's dispatch selects no updater, and the sibling
DHT1 item's dispatch still selects its updater. -/
theorem C2_unknown_kind_dropped_at_dispatch :
    (∀ (item : JVal) (s : String), jget item "sensor" = .str s → knownKind s = false →
        dispatchSensor item = none) ∧
    handleMessage configTopics configTopics.sensors envMix =
      [("onSensorData",
        .obj [("sensor", .str "DHT1"), ("value", .num 25), ("device", .str "PI1")]),
       ("onSensorData",
        .obj [("sensor", .str "ZZZ"), ("value", .num 1), ("device", .str "PI1")])] ∧
    dispatchSensor
      (.obj [("sensor", .str "ZZZ"), ("value", .num 1), ("device", .str "PI1")]) = none ∧
    dispatchSensor
      (.obj [("sensor", .str "DHT1"), ("value", .num 25), ("device", .str "PI1")]) =
      some (.dht "DHT1" (.num 25)) := by
  refine ⟨?_, rfl, rfl, rfl⟩
  intro item s hs hk
  have hks : s ∉ (["DHT1", "DHT2", "DHT3", "DPIR1", "DPIR2", "DPIR3", "DS1", "DS2",
      "DUS1", "DUS2", "DL", "DB", "BRGB", "GSG", "4SD"] : List String) :=
    of_decide_eq_false hk
  simp only [List.mem_cons, List.mem_singleton, not_or] at hks
  obtain ⟨n1, n2, n3, n4, n5, n6, n7, n8, n9, n10, n11, n12, n13, n14, n15⟩ := hks
  simp [dispatchSensor, hs, n1, n2, n3, n4, n5, n6, n7, n8, n9, n10, n11, n12, n13, n14, n15]

/-- C2 (witness): the general no-dispatch statement applied to the resolved
ZZZ item. -/
theorem C2_witness :
    dispatchSensor (.obj [("sensor", .str "ZZZ"), ("value", .num 1)]) = none :=
  C2_unknown_kind_dropped_at_dispatch.1 (.obj [("sensor", .str "ZZZ"), ("value", .num 1)])
    "ZZZ" rfl (by decide)

/-! ## Claim C3 -/

/-- C3: for a well-formed sensor-topic payload carrying a non-empty
envelope-level `device` string, (a) an absent `items` field makes the whole
payload a single-item batch whose resolved item keeps that device, and (b) a
present `items` array is handed over one resolved item per entry, in array
order (the emitted list of `onSensorData` events is the in-order image of
the array — and `_handleMessage` performs all of them synchronously before
returning), with every object item of well-formed device shape resolving to
a non-empty device. -/
theorem C3_batch_decomposition_device (data : JVal) (dev : String)
    (hdev : jget data "device" = .str dev) (hne : dev ≠ "") :
    (jget data "items" = .undefined →
        handleSensors data = [resolveItem data (.str dev)] ∧
        jget (resolveItem data (.str dev)) "device" = .str dev) ∧
    (∀ xs, jget data "items" = .arr xs →
        handleSensors data = xs.map (fun item => resolveItem item (.str dev)) ∧
        ∀ item ∈ xs, (∃ fs, item = .obj fs) → devOk (jget item "device") →
          ∃ d, jget (resolveItem item (.str dev)) "device" = .str d ∧ d ≠ "") := by
  obtain ⟨fs, rfl⟩ : ∃ fs, data = .obj fs := by
    cases data <;> simp [jget] at hdev ⊢
  constructor
  · intro hitems
    constructor
    · simp [handleSensors, itemsOf, hitems, jor, truthy, hdev]
    · have hj : jor (jget (.obj fs) "device") (.str dev) = .str dev := by
        rw [hdev]; simp [jor, truthy, hne]
      rw [resolveItem, hj]
      exact jget_jset_obj fs "device" (.str dev)
  · intro xs hitems
    constructor
    · simp [handleSensors, itemsOf, hitems, jor, truthy, hdev]
    · rintro item hmem ⟨gs, rfl⟩ hok
      rcases hok with h | h | ⟨s, h⟩
      · refine ⟨dev, ?_, hne⟩
        rw [resolveItem, h]
        simpa [jor, truthy] using jget_jset_obj gs "device" (.str dev)
      · refine ⟨dev, ?_, hne⟩
        rw [resolveItem, h]
        simpa [jor, truthy] using jget_jset_obj gs "device" (.str dev)
      · by_cases hse : s = ""
        · refine ⟨dev, ?_, hne⟩
          rw [resolveItem, h, hse]
          simpa [jor, truthy] using jget_jset_obj gs "device" (.str dev)
        · refine ⟨s, ?_, hse⟩
          rw [resolveItem, h]
          simpa [jor, truthy, hse] using jget_jset_obj gs "device" (.str s)

/-- C3 (witness): decomposing the concrete flat envelope (no `items` field)
and a concrete two-item batch envelope. -/
theorem C3_witness :
    handleSensors envFlat = [resolveItem envFlat (.str "PI1")] ∧
    handleSensors envMix = [resolveItem itemDHT (.str "PI1"), resolveItem itemZZZ (.str "PI1")] :=
  ⟨((C3_batch_decomposition_device envFlat "PI1" rfl (by decide)).1 rfl).1,
   ((C3_batch_decomposition_device envMix "PI1" rfl (by decide)).2 [itemDHT, itemZZZ] rfl).1⟩

/-! ## Claim C4 -/

/-- C4: for any inbound (topic, payload) whose payload fails to decode, the
transport message handler — a total function, so no exception propagates to
its caller — leaves the client state unchanged and emits no event, and a
stream that starts with that malformed message processes every subsequent
message exactly as if the malformed one had never arrived. -/
theorem C4_malformed_payload_isolated (decode : String → Except String JVal)
    (t : Topics) (st : MqttClientState) (topic payload e : String)
    (hbad : decode payload = .error e) :
    messageHandler decode t st topic payload = (st, []) ∧
    ∀ msgs, processMessages decode t st ((topic, payload) :: msgs) =
        processMessages decode t st msgs := by
  have h1 : messageHandler decode t st topic payload = (st, []) := by
    simp [messageHandler, hbad]
  refine ⟨h1, fun msgs => ?_⟩
  simp [processMessages, h1]

/-- C4 (witness): a bad payload before a valid sensor message, under the toy
decoder: the malformed message is dropped and the next message is routed
normally. -/
theorem C4_witness :
    messageHandler decodeToy configTopics ⟨true, true⟩ "iot/sensors" "not json" =
      (⟨true, true⟩, []) ∧
    processMessages decodeToy configTopics ⟨true, true⟩
        [("iot/sensors", "not json"), ("iot/alarm/state", "ok")] =
      processMessages decodeToy configTopics ⟨true, true⟩ [("iot/alarm/state", "ok")] := by
  have h := C4_malformed_payload_isolated decodeToy configTopics ⟨true, true⟩
    "iot/sensors" "not json" "SyntaxError" rfl
  exact ⟨h.1, h.2 [("iot/alarm/state", "ok")]⟩

/-! ## Claim C5 -/

/-- C5 (counterexample): under the concrete `config.js` topics, the
transport-connected handler issues three subscribe calls, not four — the
fourth configured topic (`webCommand`) is outbound-only and never
subscribed.  This refutes the claim that connect subscribes to exactly four
fixed topics. -/
theorem C5_counterexample :
    ¬ (subscribedTopics (onConnectHandler configTopics).2).length = 4 := by
  decide

/-- C5 (amended): on every transport-reported connected event the handler
subscribes to exactly the three fixed inbound topics — sensors, alarm
state, person count, which under `config.js` are three distinct topic
strings — sets the connected flag, and afterwards (as the last effect)
emits a `connect` event carrying no payload. -/
theorem C5_connect_three_topics :
    subscribedTopics (onConnectHandler configTopics).2 =
      ["iot/sensors", "iot/alarm/state", "iot/home/person_count"] ∧
    (subscribedTopics (onConnectHandler configTopics).2).Nodup ∧
    (onConnectHandler configTopics).1 = true ∧
    (onConnectHandler configTopics).2.getLast? = some (.fire "onConnect" .undefined) :=
  ⟨rfl, by decide, rfl, rfl⟩

/-! ## Claim C6 -/

/-- C6 (counterexample): a reading from device PI4 is recorded in
`lastUpdate` (PI4 is a known, seen device), yet the next tick re-evaluates
nothing for it — `refreshTimestamps` only ever walks the fixed list PI1,
PI2, PI3, refuting the claim that each tick re-evaluates every device ever
seen. -/
theorem C6_counterexample :
    getEntry (recordSeen initDash "PI4" 0) "PI4" = some (some 0) ∧
    refreshTimestamps (recordSeen initDash "PI4" 0) 1000 = [] :=
  ⟨rfl, rfl⟩

/-- C6 (amended): with the 30-second threshold, after a PI1 reading at time
t0 a tick at t0 + 31s derives PI1 offline and a tick at t0 + 10s derives it
online; but a tick re-evaluates only devices from the fixed subset
PI1, PI2, PI3 (those with a recorded timestamp), not every device ever
seen. -/
theorem C6_liveness_threshold (t0 : ℤ) :
    refreshTimestamps (recordSeen initDash "PI1" t0) (t0 + 31000) = [("PI1", false)] ∧
    refreshTimestamps (recordSeen initDash "PI1" t0) (t0 + 10000) = [("PI1", true)] ∧
    ∀ (lu : LastUpdate) (now : ℤ) (d : String) (b : Bool),
      (d, b) ∈ refreshTimestamps lu now → d ∈ ["PI1", "PI2", "PI3"] := by
  refine ⟨?_, ?_, ?_⟩
  · rw [refresh_single]
    have h : t0 + 31000 - t0 = (31000 : ℤ) := by ring
    rw [h]
    rfl
  · rw [refresh_single]
    have h : t0 + 10000 - t0 = (10000 : ℤ) := by ring
    rw [h]
    rfl
  · intro lu now d b hmem
    simp only [refreshTimestamps, List.mem_filterMap] at hmem
    obtain ⟨pi, hpi, hsome⟩ := hmem
    have := piStatus_name lu now pi d b hsome
    simpa [this] using hpi

/-- C6 (witness): the amended theorem at t0 = 0, plus its fixed-subset part
applied to the concrete post-reading state at tick time 1000. -/
theorem C6_witness :
    refreshTimestamps (recordSeen initDash "PI1" 0) 31000 = [("PI1", false)] ∧
    "PI1" ∈ (["PI1", "PI2", "PI3"] : List String) :=
  ⟨by simpa using (C6_liveness_threshold 0).1,
   (C6_liveness_threshold 0).2.2 (recordSeen initDash "PI1" 0) 1000 "PI1" true (by decide)⟩

/-! ## Claim C8 -/

/-- C8 (counterexample): a connected call with `params = null` does not
publish the serialized object with the given `params` — the code substitutes
the empty object for a falsy `params` (`params || \x7b\x7d`), so the
published object differs from the literal (target, command, params)
triple. -/
theorem C8_counterexample :
    (publishCommand ⟨true, true⟩ configTopics (.str "PI1") (.str "disarm") .null).2 =
      some ("iot/web/command",
        .obj [("target", .str "PI1"), ("command", .str "disarm"), ("params", .obj [])]) ∧
    (.obj [("target", .str "PI1"), ("command", .str "disarm"), ("params", .obj [])] : JVal) ≠
      .obj [("target", .str "PI1"), ("command", .str "disarm"), ("params", .null)] := by
  refine ⟨rfl, ?_⟩
  intro h
  injection h with h1
  rw [List.cons.injEq, List.cons.injEq, List.cons.injEq, Prod.mk.injEq, Prod.mk.injEq,
    Prod.mk.injEq] at h1
  exact JVal.noConfusion h1.2.2.1.2

/-- C8 (amended): while the client is absent or not connected,
`publishCommand` returns without raising (it is a total function), publishes
nothing and leaves the client state unchanged; when connected it publishes
exactly one message, to the single fixed outbound command topic, whose
object carries the given target and command and the given params with a
falsy params replaced by the empty object (in particular a truthy `params`
is passed through unchanged). -/
theorem C8_publish_best_effort (st : MqttClientState) (t : Topics)
    (target command params : JVal) :
    (st.clientPresent = false ∨ st.connected = false →
        publishCommand st t target command params = (st, none)) ∧
    (st.clientPresent = true → st.connected = true →
        publishCommand st t target command params =
          (st, some (t.webCommand, commandPayload target command params)) ∧
        (truthy params = true →
          commandPayload target command params =
            .obj [("target", target), ("command", command), ("params", params)])) := by
  constructor
  · rintro (h | h) <;> simp [publishCommand, h]
  · intro h1 h2
    refine ⟨by simp [publishCommand, h1, h2], fun ht => ?_⟩
    simp [commandPayload, jor, ht]

/-- C8 (witness): a disconnected call publishes nothing and keeps the state;
a connected call with object params publishes the command payload to the
fixed topic. -/
theorem C8_witness :
    publishCommand ⟨true, false⟩ configTopics (.str "PI2") (.str "timer_stop") (.obj []) =
      (⟨true, false⟩, none) ∧
    publishCommand ⟨true, true⟩ configTopics (.str "PI2") (.str "timer_stop") (.obj []) =
      (⟨true, true⟩, some ("iot/web/command",
        commandPayload (.str "PI2") (.str "timer_stop") (.obj []))) :=
  ⟨(C8_publish_best_effort ⟨true, false⟩ configTopics (.str "PI2") (.str "timer_stop")
      (.obj [])).1 (Or.inr rfl),
   ((C8_publish_best_effort ⟨true, true⟩ configTopics (.str "PI2") (.str "timer_stop")
      (.obj [])).2 rfl rfl).1⟩

/-! ## Claim C9 -/

/-- C9: the colour decode rescales each 0.0–1.0 channel fraction to a 0–255
rounded integer channel: the raw value with r = 1, g = 0.5, b = 0 yields
channels 255, 128 and 0; and generally a channel whose key is missing from
the value object is treated as 0. -/
theorem C9_rgb_rescale :
    updateRGB (.obj [("r", .num 1), ("g", .num (1 / 2)), ("b", .num 0)]) =
      some (some 255, some 128, some 0) ∧
    ∀ (fs : List (String × JVal)) (k : String), getEntry fs k = none →
      rgbChannel (.obj fs) k = some 0 := by
  constructor
  · have hr : jget (.obj [("r", .num 1), ("g", .num (1 / 2)), ("b", .num 0)]) "r" = .num 1 := rfl
    have hg : jget (.obj [("r", .num 1), ("g", .num (1 / 2)), ("b", .num 0)]) "g" =
      .num (1 / 2) := rfl
    have hb : jget (.obj [("r", .num 1), ("g", .num (1 / 2)), ("b", .num 0)]) "b" = .num 0 := rfl
    show some (rgbChannel _ "r", rgbChannel _ "g", rgbChannel _ "b") = _
    norm_num [rgbChannel, hr, hg, hb, jor, truthy, toNumberJS, roundJS]
  · intro fs k h
    simp [rgbChannel, jget, h, jor, truthy, toNumberJS, roundJS]
    norm_num

/-- C9 (witness): the missing-channel statement applied to an object
carrying only an r channel. -/
theorem C9_witness : rgbChannel (.obj [("r", .num 1)]) "b" = some 0 :=
  C9_rgb_rescale.2 [("r", .num 1)] "b" rfl

end SmartHomeIoT
